import Mathlib

/-!
Verification of the Prose-Image-Reduction photometry/reporting toolkit.

Shallow embedding of the relevant parts of `src/prose/observation.py`,
`src/prose/reports/__init__.py` and `src/prose/tess/reports/exofop_upload.py`.
Machine floats are modelled as exact rationals (ℚ) where the code only uses
field operations, and as reals (ℝ) where the code takes square roots.
Python sequences become Lean lists, Python `None` becomes `Option`, and
Python assertions / fail-fast checks become `Except`-valued functions.
-/

namespace ProseVerify

/-! ### PSF ellipticity — `observation.py`, `Observation.save_report`, lines 503–505

    max_psf = np.max([std_x, std_y])
    min_psf = np.min([std_x, std_y])
    ellipticity = (max_psf ** 2 - min_psf ** 2) / max_psf ** 2
-/

def maxPsf (stdX stdY : ℚ) : ℚ := max stdX stdY

def minPsf (stdX stdY : ℚ) : ℚ := min stdX stdY

def ellipticity (stdX stdY : ℚ) : ℚ :=
  (maxPsf stdX stdY ^ 2 - minPsf stdX stdY ^ 2) / maxPsf stdX stdY ^ 2

/-- Algebraic identity: for a positive larger std the ellipticity is
`1 - (min/max)^2`. -/
lemma ellipticity_eq_one_sub (stdX stdY : ℚ) (hx : 0 < stdX) (hy : 0 < stdY) :
    ellipticity stdX stdY = 1 - (minPsf stdX stdY / maxPsf stdX stdY) ^ 2 := by
  have hM : (0:ℚ) < maxPsf stdX stdY := lt_max_of_lt_left hx
  have hM2 : (maxPsf stdX stdY) ^ 2 ≠ 0 := pow_ne_zero 2 (ne_of_gt hM)
  unfold ellipticity
  rw [div_pow]
  field_simp

/-! ### Precision estimator preconditions — `observation.py`,
`Observation.plot_precision`, lines 535–542

    if aperture is None:
        assert self.lcs is not None, "You must set 'aperture' kwargs ..."
        aperture = self.lc.best_aperture_id
    n_bin = int(bins / (np.mean(self.exptime) / (60 * 60 * 24)))
    assert len(self.time) > n_bin, "Your 'bins' size is less than the total exposure"
-/

/-- Arithmetic mean of a list of rationals (`np.mean`); `0` on the empty list
(where numpy would produce NaN). -/
def meanQ (xs : List ℚ) : ℚ := xs.sum / (xs.length : ℚ)

/-- Python `int()` applied to a rational: truncation toward zero. -/
def pyInt (q : ℚ) : ℤ := if 0 ≤ q then ⌊q⌋ else -⌊-q⌋

/-- Embeds `n_bin = int(bins / (np.mean(self.exptime) / (60 * 60 * 24)))`. -/
def nBin (bins : ℚ) (exptime : List ℚ) : ℤ :=
  pyInt (bins / (meanQ exptime / (60 * 60 * 24)))

/-- Aperture selection at the top of `plot_precision`: if no aperture is given,
the assertion on `self.lcs` runs first, then the best aperture id is taken from
the light curve. `L` stands for the light-curve object, `A` for aperture ids. -/
def selectAperture {A L : Type} (aperture : Option A) (lcs : Option L)
    (bestApertureId : L → A) : Except String A :=
  match aperture with
  | some a => Except.ok a
  | none =>
    match lcs with
    | none => Except.error "You must set 'aperture' kwargs (light-curve not present to pick best aperture id)"
    | some lc => Except.ok (bestApertureId lc)

/-- The two fail-fast checks of `plot_precision`, in source order: aperture
selection first, then the bin-count assertion against the sample count. -/
def plotPrecisionChecks {A L : Type} (aperture : Option A) (lcs : Option L)
    (bestApertureId : L → A) (bins : ℚ) (exptime : List ℚ) (nTime : ℕ) :
    Except String A :=
  match selectAperture aperture lcs bestApertureId with
  | Except.error e => Except.error e
  | Except.ok a =>
    if (nTime : ℤ) > nBin bins exptime then Except.ok a
    else Except.error "Your 'bins' size is less than the total exposure"

/-- C4: For positive marginal standard deviations the PSF ellipticity equals
`(max² − min²)/max²` (the embedded formula), is `0` exactly when
`std_x = std_y`, lies in `[0, 1)`, and tends to `1` as `min/max` tends to `0`. -/
theorem C4_ellipticity (stdX stdY : ℚ) (hx : 0 < stdX) (hy : 0 < stdY) :
    ellipticity stdX stdY =
      (maxPsf stdX stdY ^ 2 - minPsf stdX stdY ^ 2) / maxPsf stdX stdY ^ 2 ∧
    (ellipticity stdX stdY = 0 ↔ stdX = stdY) ∧
    0 ≤ ellipticity stdX stdY ∧ ellipticity stdX stdY < 1 ∧
    ∀ ε : ℚ, 0 < ε → ∃ δ : ℚ, 0 < δ ∧ ∀ a b : ℚ, 0 < a → 0 < b →
      minPsf a b / maxPsf a b < δ → 1 - ellipticity a b < ε := by
  have hM : (0:ℚ) < maxPsf stdX stdY := lt_max_of_lt_left hx
  have hm : (0:ℚ) < minPsf stdX stdY := lt_min hx hy
  have hmM : minPsf stdX stdY ≤ maxPsf stdX stdY := min_le_max
  have hM2 : (0:ℚ) < maxPsf stdX stdY ^ 2 := pow_pos hM 2
  have hm2 : (0:ℚ) < minPsf stdX stdY ^ 2 := pow_pos hm 2
  have hle2 : minPsf stdX stdY ^ 2 ≤ maxPsf stdX stdY ^ 2 := by nlinarith
  refine ⟨rfl, ?_, ?_, ?_, ?_⟩
  · constructor
    · intro h
      rw [ellipticity, div_eq_zero_iff] at h
      have hsub : maxPsf stdX stdY ^ 2 - minPsf stdX stdY ^ 2 = 0 := by
        rcases h with h | h
        · exact h
        · exact absurd h (ne_of_gt hM2)
      have hMm : maxPsf stdX stdY = minPsf stdX stdY := by
        by_contra hne
        have hlt : minPsf stdX stdY < maxPsf stdX stdY :=
          lt_of_le_of_ne hmM (fun h' => hne h'.symm)
        nlinarith
      have h1 : stdX ≤ stdY := by
        calc stdX ≤ maxPsf stdX stdY := le_max_left _ _
          _ = minPsf stdX stdY := hMm
          _ ≤ stdY := min_le_right _ _
      have h2 : stdY ≤ stdX := by
        calc stdY ≤ maxPsf stdX stdY := le_max_right _ _
          _ = minPsf stdX stdY := hMm
          _ ≤ stdX := min_le_left _ _
      exact le_antisymm h1 h2
    · intro h
      simp [ellipticity, maxPsf, minPsf, h]
  · exact div_nonneg (by linarith) hM2.le
  · rw [ellipticity, div_lt_one hM2]
    linarith
  · intro ε hε
    refine ⟨ε, hε, ?_⟩
    intro a b ha hb hr
    have hMab : (0:ℚ) < maxPsf a b := lt_max_of_lt_left ha
    have hmab : (0:ℚ) < minPsf a b := lt_min ha hb
    have hrpos : (0:ℚ) < minPsf a b / maxPsf a b := div_pos hmab hMab
    have hrle1 : minPsf a b / maxPsf a b ≤ 1 := (div_le_one hMab).mpr min_le_max
    have heq : 1 - ellipticity a b = (minPsf a b / maxPsf a b) ^ 2 := by
      rw [ellipticity_eq_one_sub a b ha hb]; ring
    rw [heq]
    nlinarith

/-- C4 witness: the theorem instantiated at `std_x = 1`, `std_y = 2`. -/
theorem C4_ellipticity_witness :
    ellipticity 1 2 = (maxPsf 1 2 ^ 2 - minPsf 1 2 ^ 2) / maxPsf 1 2 ^ 2 ∧
    (ellipticity 1 2 = 0 ↔ (1:ℚ) = 2) ∧
    0 ≤ ellipticity 1 2 ∧ ellipticity 1 2 < 1 ∧
    ∀ ε : ℚ, 0 < ε → ∃ δ : ℚ, 0 < δ ∧ ∀ a b : ℚ, 0 < a → 0 < b →
      minPsf a b / maxPsf a b < δ → 1 - ellipticity a b < ε :=
  C4_ellipticity 1 2 (by norm_num) (by norm_num)

/-- C8: With no explicit aperture and no light curve, `plot_precision` fails
with the precondition error, whatever the remaining inputs are (the check runs
before any computation); with a light curve present, aperture selection
proceeds with the light curve's best aperture id. -/
theorem C8_aperture_precondition {A L : Type} (bestApertureId : L → A)
    (bins : ℚ) (exptime : List ℚ) (nTime : ℕ) :
    plotPrecisionChecks (A := A) (L := L) none none bestApertureId bins exptime nTime =
      Except.error "You must set 'aperture' kwargs (light-curve not present to pick best aperture id)" ∧
    ∀ lc : L, selectAperture (A := A) none (some lc) bestApertureId =
      Except.ok (bestApertureId lc) := by
  constructor
  · rfl
  · intro lc
    rfl

/-- C7 counterexample: with mean exposure 864 s (cadence 1/100 day) and
`bins = 1/20` day, the bin count is `5`; with exactly `5` samples the code's
assertion fails even though the sample count is not smaller than the bin
count, contradicting the claim's "exactly when fewer samples exist". -/
theorem C7_counterexample :
    plotPrecisionChecks (A := Unit) (L := Unit) (some ()) none (fun _ => ())
        (1/20) [864] 5 =
      Except.error "Your 'bins' size is less than the total exposure" ∧
    ¬ ((5 : ℤ) < nBin (1/20 : ℚ) [864]) := by
  have h : nBin (1/20 : ℚ) [864] = 5 := by
    norm_num [nBin, pyInt, meanQ]
  refine ⟨?_, by rw [h]; norm_num⟩
  simp only [plotPrecisionChecks, selectAperture, h]
  norm_num

/-- C7 (amended): the bin count is `bins` divided by the mean cadence
(mean exposure in days), truncated to an integer; given a positive mean
exposure, the assertion fails exactly when the sample count is at most the
bin count (equivalently, it passes iff strictly more samples than bins). -/
theorem C7_bin_assertion {A L : Type} (a : A) (lcs : Option L)
    (bestApertureId : L → A) (bins : ℚ) (exptime : List ℚ) (nTime : ℕ)
    (hexp : 0 < meanQ exptime) :
    nBin bins exptime = pyInt (bins / (meanQ exptime / (60 * 60 * 24))) ∧
    (plotPrecisionChecks (some a) lcs bestApertureId bins exptime nTime =
        Except.error "Your 'bins' size is less than the total exposure" ↔
      (nTime : ℤ) ≤ nBin bins exptime) := by
  refine ⟨rfl, ?_⟩
  show ((if (nTime : ℤ) > nBin bins exptime then Except.ok a
      else Except.error "Your 'bins' size is less than the total exposure") =
      Except.error "Your 'bins' size is less than the total exposure" ↔
    (nTime : ℤ) ≤ nBin bins exptime)
  by_cases h : (nTime : ℤ) > nBin bins exptime
  · rw [if_pos h]
    constructor
    · intro hc
      exact absurd hc (by simp)
    · intro hc
      omega
  · rw [if_neg h]
    constructor
    · intro _
      omega
    · intro _
      rfl

/-- C7 witness: the amended theorem at a concrete input (6 samples, bin
count 5): the check passes, in agreement with `6 > 5`. -/
theorem C7_bin_assertion_witness :
    (0 : ℚ) < meanQ [864] ∧
    (nBin (1/20 : ℚ) [864] = pyInt ((1/20 : ℚ) / (meanQ [864] / (60 * 60 * 24))) ∧
    (plotPrecisionChecks (some ()) (none : Option Unit) (fun _ => ())
        (1/20) [864] 6 =
        Except.error "Your 'bins' size is less than the total exposure" ↔
      (6 : ℤ) ≤ nBin (1/20 : ℚ) [864])) :=
  ⟨by norm_num [meanQ],
   C7_bin_assertion () none (fun _ => ()) (1/20) [864] 6 (by norm_num [meanQ])⟩

/-! ### Report metadata table — `reports/__init__.py`,
`ObservationReport.__init__`, lines 25–47

    obs_duration_hours = (max_datetime - min_datetime).seconds // 3600
    obs_duration_mins = ((max_datetime - min_datetime).seconds // 60) % 60
    obs_duration = f"{min_datetime:%H:%M} - {max_datetime:%H:%M} " \
        f"[{h}h{m if m != 0 else ''}]"
    self.obstable = [ ... ]

The strftime outputs and the float-formatted entries are kept as opaque
string parameters; the table labels, their order, and the construction of the
time-span string are embedded exactly. -/

/-- The `obs_duration` f-string of `ObservationReport.__init__`. -/
def obsDurationString (startHM endHM : String) (seconds : ℕ) : String :=
  startHM ++ " - " ++ endHM ++ " [" ++ toString (seconds / 3600) ++ "h" ++
    (if (seconds / 60) % 60 ≠ 0 then toString ((seconds / 60) % 60) else "") ++ "]"

/-- Opaque per-observation inputs of the metadata table. -/
structure ObsMeta where
  startHM : String
  endHM : String
  durationSeconds : ℕ
  ra : String
  dec : String
  nImages : ℕ
  meanStdFwhm : String
  aperRadius : String
  telescopeName : String
  filterName : String
  meanExptime : String

/-- The table `self.obstable` as built in `ObservationReport.__init__` (a `None` value
becomes `Option.none`). -/
def obstable (m : ObsMeta) : List (String × Option String) :=
  [("TIC ID", none),
   ("Time", some (obsDurationString m.startHM m.endHM m.durationSeconds)),
   ("RA - DEC", some (m.ra ++ " " ++ m.dec)),
   ("Number of images", some (toString m.nImages)),
   ("GAIA id", none),
   ("Mean std · fwhm", some m.meanStdFwhm),
   ("Best aperture radius", some (m.aperRadius ++ " pixels")),
   ("Telescope", some m.telescopeName),
   ("Filter", some m.filterName),
   ("Exposure time", some (m.meanExptime ++ " s"))]

/-- Time-span format as the amended claim words it: minutes are written from
the remainder of the duration after whole hours, and omitted exactly when
that remainder is zero. -/
def spec_obsDurationString (startHM endHM : String) (seconds : ℕ) : String :=
  startHM ++ " - " ++ endHM ++ " [" ++ toString (seconds / 3600) ++ "h" ++
    (if seconds % 3600 / 60 = 0 then "" else toString (seconds % 3600 / 60)) ++ "]"

/-- C9 counterexample: a whole-hour duration (7200 s = 2h0m) renders as
`[2h]` — the minutes component is omitted, so it is not present for every
duration as the claim states. -/
theorem C9_counterexample :
    obsDurationString "10:00" "12:00" 7200 = "10:00 - 12:00 [2h]" ∧
    obsDurationString "10:00" "12:00" 7200 ≠ "10:00 - 12:00 [2h0]" := by
  constructor
  · rfl
  · decide

/-- C9 (amended): the metadata table has exactly the ten claimed fields in the
claimed fixed order, and the time span is formatted
`HH:MM - HH:MM [<hours>h<minutes>]` with the minutes component present exactly
when the duration's minute remainder is nonzero. -/
theorem C9_obstable (m : ObsMeta) :
    (obstable m).map Prod.fst =
      ["TIC ID", "Time", "RA - DEC", "Number of images", "GAIA id",
       "Mean std · fwhm", "Best aperture radius", "Telescope", "Filter",
       "Exposure time"] ∧
    (obstable m)[1]? =
      some ("Time",
        some (spec_obsDurationString m.startHM m.endHM m.durationSeconds)) := by
  constructor
  · rfl
  · have hmins : (m.durationSeconds / 60) % 60 = m.durationSeconds % 3600 / 60 := by
      omega
    by_cases h : m.durationSeconds % 3600 / 60 = 0
    · simp [obstable, obsDurationString, spec_obsDurationString, hmins, h]
    · simp [obstable, obsDurationString, spec_obsDurationString, hmins, h]

/-! ### Report assembly — `reports/__init__.py`,
`ObservationReport.make_report_folder` (202–211), `make_figures` (213–235),
`make` (275–287)

`make` is modelled by the trace of filesystem effects it performs, in source
order.  `t0` and `duration` are the optional float arguments; the guard for
the transit-model figure is the literal Python condition
`if t0 and duration is not None`, i.e. truthiness of `t0` (not `None` and
nonzero) conjoined with `duration is not None`. -/

/-- One filesystem effect of report assembly. `removeEntry` is never emitted
by the embedded code; it is included so "never deletes existing contents" is
expressible. -/
inductive FsEvent where
  | mkdir (p : String)
  | saveFig (p : String)
  | writeCsv (p : String)
  | copyFile (src dst : String)
  | writeTex (p : String)
  | removeEntry (p : String)
  deriving DecidableEq, Repr

/-- Python truthiness of an optional float: `None` and `0.0` are falsy. -/
def pyTruthy (q : Option ℚ) : Bool :=
  match q with
  | none => false
  | some x => decide (x ≠ 0)

/-- Embeds `make_report_folder`: `os.mkdir` on the destination and on `figures/`,
each only when `path.exists` is false (the exists flags are parameters). -/
def makeReportFolderTrace (dest : String) (destExists figExists : Bool) :
    List FsEvent :=
  (if destExists then [] else [FsEvent.mkdir dest]) ++
  (if figExists then [] else [FsEvent.mkdir (dest ++ "/figures")])

/-- Embeds `make_figures`: the six unconditional `plt.savefig` calls in source
order, then `model.png` under the literal guard `t0 and duration is not None`. -/
def makeFiguresTrace (figDest : String) (t0 duration : Option ℚ) :
    List FsEvent :=
  [FsEvent.saveFig (figDest ++ "/psf.png"),
   FsEvent.saveFig (figDest ++ "/comparison.png"),
   FsEvent.saveFig (figDest ++ "/raw.png"),
   FsEvent.saveFig (figDest ++ "/systematics.png"),
   FsEvent.saveFig (figDest ++ "/stars.png"),
   FsEvent.saveFig (figDest ++ "/lightcurve.png")] ++
  (if pyTruthy t0 && duration.isSome then
    [FsEvent.saveFig (figDest ++ "/model.png")] else [])

/-- Embeds `make`: folder creation, figures, measurement CSV
(`<dest>/<report_name>.txt`), style-asset copy, rendered template write. -/
def makeTrace (dest reportName : String) (destExists figExists : Bool)
    (t0 duration : Option ℚ) : List FsEvent :=
  makeReportFolderTrace dest destExists figExists ++
  makeFiguresTrace (dest ++ "/figures") t0 duration ++
  [FsEvent.writeCsv (dest ++ "/" ++ reportName ++ ".txt"),
   FsEvent.copyFile "prose-report.cls" (dest ++ "/prose-report.cls"),
   FsEvent.writeTex (dest ++ "/" ++ reportName ++ ".tex")]

/-- The step sequence as the amended claim words it: conditional directory
creation, the six diagnostic figures in order, optionally the transit-model
figure, then CSV, style asset, and rendered document. -/
def spec_makeSteps (dest reportName : String) (destExists figExists genModel : Bool) :
    List FsEvent :=
  (if destExists then [] else [FsEvent.mkdir dest]) ++
  (if figExists then [] else [FsEvent.mkdir (dest ++ "/figures")]) ++
  [FsEvent.saveFig (dest ++ "/figures" ++ "/psf.png"),
   FsEvent.saveFig (dest ++ "/figures" ++ "/comparison.png"),
   FsEvent.saveFig (dest ++ "/figures" ++ "/raw.png"),
   FsEvent.saveFig (dest ++ "/figures" ++ "/systematics.png"),
   FsEvent.saveFig (dest ++ "/figures" ++ "/stars.png"),
   FsEvent.saveFig (dest ++ "/figures" ++ "/lightcurve.png")] ++
  (if genModel then [FsEvent.saveFig (dest ++ "/figures" ++ "/model.png")] else []) ++
  [FsEvent.writeCsv (dest ++ "/" ++ reportName ++ ".txt"),
   FsEvent.copyFile "prose-report.cls" (dest ++ "/prose-report.cls"),
   FsEvent.writeTex (dest ++ "/" ++ reportName ++ ".tex")]

/-- Left cancellation for string append. -/
lemma strAppend_left_cancel {s a b : String} (h : s ++ a = s ++ b) : a = b := by
  have h2 : s.data ++ a.data = s.data ++ b.data := by
    have := congrArg String.data h
    simpa using this
  exact String.ext (List.append_cancel_left h2)

/-- C5 counterexample: with `t0 = 0.0` and `duration = 1.0` both provided,
`model.png` is not generated (Python truthiness of `t0 = 0` is false),
refuting "generated if and only if both t0 and duration are provided". -/
theorem C5_counterexample :
    (some (0 : ℚ)).isSome = true ∧ (some (1 : ℚ)).isSome = true ∧
    FsEvent.saveFig "out/figures/model.png" ∉
      makeTrace "out" "out" false false (some 0) (some 1) := by
  refine ⟨rfl, rfl, ?_⟩
  decide

/-- C5 (amended): `make` performs exactly the claimed steps in the claimed
fixed order, where the transit-model figure is generated if and only if `t0`
is provided and nonzero (Python truthiness) and `duration` is provided; no
step removes an existing filesystem entry. -/
theorem C5_make_order (dest reportName : String) (destExists figExists : Bool)
    (t0 duration : Option ℚ) :
    makeTrace dest reportName destExists figExists t0 duration =
      spec_makeSteps dest reportName destExists figExists
        (pyTruthy t0 && duration.isSome) ∧
    (FsEvent.saveFig (dest ++ "/figures" ++ "/model.png") ∈
        makeTrace dest reportName destExists figExists t0 duration ↔
      (∃ x : ℚ, t0 = some x ∧ x ≠ 0) ∧ duration ≠ none) ∧
    ∀ p, FsEvent.removeEntry p ∉
      makeTrace dest reportName destExists figExists t0 duration := by
  have hiff : (pyTruthy t0 && duration.isSome) = true ↔
      ((∃ x : ℚ, t0 = some x ∧ x ≠ 0) ∧ duration ≠ none) := by
    cases t0 with
    | none => simp [pyTruthy]
    | some x =>
      cases duration with
      | none => simp [pyTruthy]
      | some d =>
        by_cases hx : x = 0
        · simp [pyTruthy, hx]
        · simp [pyTruthy, hx]
  have hcancel : ∀ a b : String, a ≠ b →
      dest ++ "/figures" ++ a ≠ dest ++ "/figures" ++ b :=
    fun a b hab h => hab (strAppend_left_cancel h)
  have h1 := hcancel "/model.png" "/psf.png" (by decide)
  have h2 := hcancel "/model.png" "/comparison.png" (by decide)
  have h3 := hcancel "/model.png" "/raw.png" (by decide)
  have h4 := hcancel "/model.png" "/systematics.png" (by decide)
  have h5 := hcancel "/model.png" "/stars.png" (by decide)
  have h6 := hcancel "/model.png" "/lightcurve.png" (by decide)
  refine ⟨?_, ?_, ?_⟩
  · cases destExists <;> cases figExists <;>
      by_cases hc : (pyTruthy t0 && duration.isSome) = true <;>
        simp [makeTrace, makeReportFolderTrace, makeFiguresTrace, spec_makeSteps, hc]
  · rw [← hiff]
    cases destExists <;> cases figExists <;>
      by_cases hc : (pyTruthy t0 && duration.isSome) = true <;>
        simp [makeTrace, makeReportFolderTrace, makeFiguresTrace, hc,
          h1, h2, h3, h4, h5, h6]
  · intro p
    cases destExists <;> cases figExists <;>
      by_cases hc : (pyTruthy t0 && duration.isSome) = true <;>
        simp [makeTrace, makeReportFolderTrace, makeFiguresTrace, hc]

/-! ### ExoFOP upload adapter — `tess/reports/exofop_upload.py`,
`UploadToExofop.upload`, lines 136–197

A figure file is POSTed iff it is a regular file, its name starts with `TIC`
but not with `TIC `, and the suffix-to-description chain assigns it a
nonempty description; otherwise it is only logged as not uploaded.
Python `str.startswith` / `str.endswith` are modelled on the character
lists underlying the strings. -/

/-- Python `str.endswith`. -/
def strEndsWith (s pat : String) : Bool := List.isSuffixOf pat.data s.data

/-- Python `str.startswith`. -/
def strStartsWith (s pat : String) : Bool := List.isPrefixOf pat.data s.data

/-- The suffix-to-description chain of `UploadToExofop.upload`, in source
order; unmatched names keep the empty description. -/
def uploadDescription (fileName : String) : String :=
  if strEndsWith fileName "stars.png" then "Field Image with Apertures"
  else if strEndsWith fileName "model.png" then "Light curve plot target star with model"
  else if strEndsWith fileName "psf.png" then "Seeing profile"
  else if strEndsWith fileName "comparison.png" then "Light curve plot comparison stars"
  else if strEndsWith fileName "systematics.png" then "AstroImageJ Photometry Aperture File"
  else if strEndsWith fileName "Light curve plot target target star with systematics" then "AstroImageJ Plot Configuration File"
  else if strEndsWith fileName "measurements.txt" then " Measurements Table"
  else if strEndsWith fileName "lightcurve.png" then "Light curve plot target star"
  else ""

/-- The suffixes the description chain recognizes. -/
def recognizedSuffixes : List String :=
  ["stars.png", "model.png", "psf.png", "comparison.png", "systematics.png",
   "Light curve plot target target star with systematics",
   "measurements.txt", "lightcurve.png"]

/-- Whether `upload` POSTs the file: the `is_file`/`startswith` guard and a
nonempty description; in every other case the file is only printed as
`******NOT UPLOADED`. -/
def uploadedToExofop (isFile : Bool) (fileName : String) : Bool :=
  isFile && strStartsWith fileName "TIC" && !strStartsWith fileName "TIC " &&
    !(uploadDescription fileName == "")

/-- C6: a file whose name ends with none of the recognized suffixes is never
included in an upload POST, whatever its other attributes. -/
theorem C6_unrecognized_suffix_not_uploaded (isFile : Bool) (fileName : String)
    (h : ∀ pat ∈ recognizedSuffixes, strEndsWith fileName pat = false) :
    uploadedToExofop isFile fileName = false := by
  have h1 := h "stars.png" (by simp [recognizedSuffixes])
  have h2 := h "model.png" (by simp [recognizedSuffixes])
  have h3 := h "psf.png" (by simp [recognizedSuffixes])
  have h4 := h "comparison.png" (by simp [recognizedSuffixes])
  have h5 := h "systematics.png" (by simp [recognizedSuffixes])
  have h6 := h "Light curve plot target target star with systematics"
    (by simp [recognizedSuffixes])
  have h7 := h "measurements.txt" (by simp [recognizedSuffixes])
  have h8 := h "lightcurve.png" (by simp [recognizedSuffixes])
  have hd : uploadDescription fileName = "" := by
    simp [uploadDescription, h1, h2, h3, h4, h5, h6, h7, h8]
  simp [uploadedToExofop, hd]

/-- C6 witness: the adversarial name `TICstars.pngx` contains `stars.png` in
the middle but at no suffix position; it matches no recognized suffix and is
not uploaded even though it is a file and passes the `TIC` prefix guard. -/
theorem C6_witness :
    (∀ pat ∈ recognizedSuffixes, strEndsWith "TICstars.pngx" pat = false) ∧
    strStartsWith "TICstars.pngx" "TIC" = true ∧
    uploadedToExofop true "TICstars.pngx" = false :=
  ⟨by decide, by decide,
   C6_unrecognized_suffix_not_uploaded true "TICstars.pngx" (by decide)⟩

/-- C10: a file whose name does not start with `TIC`, or starts with `TIC `
(TIC followed by a space), is never uploaded — even when it ends with a
recognized suffix. -/
theorem C10_tic_name_guard (isFile : Bool) (fileName : String)
    (h : strStartsWith fileName "TIC" = false ∨
      strStartsWith fileName "TIC " = true) :
    uploadedToExofop isFile fileName = false := by
  rcases h with h | h
  · simp [uploadedToExofop, h]
  · simp [uploadedToExofop, h]

/-- C10 witness: `TIC stars.png` starts with `TIC ` and ends with the
recognized suffix `stars.png`, yet is not uploaded. -/
theorem C10_witness :
    strStartsWith "TIC stars.png" "TIC " = true ∧
    strEndsWith "TIC stars.png" "stars.png" = true ∧
    uploadedToExofop true "TIC stars.png" = false :=
  ⟨by decide, by decide,
   C10_tic_name_guard true "TIC stars.png" (Or.inr (by decide))⟩

/-! ### Precision estimator filtering and ordering — `observation.py`,
`Observation.plot_precision`, lines 544–564

    mean_fluxes = np.mean(fluxes, axis=1)
    mean_errors = np.mean(errors, axis=1)
    ccd_equation = (mean_errors / mean_fluxes)
    inv_snr_estimate = error_estimate / mean_fluxes
    positive_est = inv_snr_estimate > 0
    mean_fluxes = mean_fluxes[positive_est]
    inv_snr_estimate = inv_snr_estimate[positive_est]
    ccd_equation = ccd_equation[positive_est]
    sorted_fluxes_idxs = np.argsort(mean_fluxes)

`error_estimate` (the per-star median of binned standard deviations) involves
real square roots and is taken as an input array here.  Boolean-mask indexing
is `maskFilter`; `np.argsort` applied uniformly to the three filtered arrays
is modelled by sorting the per-star triples by mean flux (numpy's default
quicksort leaves the order of ties unspecified). -/

/-- One star's entry in the three parallel output arrays. -/
structure StarStat where
  meanFlux : ℚ
  invSnr : ℚ
  ccd : ℚ
  deriving DecidableEq, Repr

/-- Comparison by mean flux, the `np.argsort(mean_fluxes)` key. -/
def statLE (a b : StarStat) : Prop := a.meanFlux ≤ b.meanFlux

instance : DecidableRel statLE :=
  fun a b => inferInstanceAs (Decidable (a.meanFlux ≤ b.meanFlux))

instance : IsTotal StarStat statLE := ⟨fun a b => le_total a.meanFlux b.meanFlux⟩

instance : IsTrans StarStat statLE := ⟨fun _ _ _ h1 h2 => le_trans h1 h2⟩

/-- Embeds `np.mean(fluxes, axis=1)`. -/
def meanFluxes (fluxes : List (List ℚ)) : List ℚ := fluxes.map meanQ

/-- Embeds `np.mean(errors, axis=1)`. -/
def meanErrors (errors : List (List ℚ)) : List ℚ := errors.map meanQ

/-- Embeds `inv_snr_estimate = error_estimate / mean_fluxes` (elementwise). -/
def invSnrEstimate (errorEstimate meanF : List ℚ) : List ℚ :=
  List.zipWith (fun e F => e / F) errorEstimate meanF

/-- Embeds `ccd_equation = mean_errors / mean_fluxes` (elementwise). -/
def ccdEquation (meanE meanF : List ℚ) : List ℚ :=
  List.zipWith (fun e F => e / F) meanE meanF

/-- Embeds `positive_est = inv_snr_estimate > 0` (elementwise boolean mask). -/
def positiveMask (xs : List ℚ) : List Bool := xs.map (fun x => decide (0 < x))

/-- numpy boolean-mask indexing `a[mask]`. -/
def maskFilter {α : Type} (xs : List α) (mask : List Bool) : List α :=
  ((xs.zip mask).filter (fun p => p.2)).map (fun p => p.1)

/-- The three parallel arrays bundled star-by-star. -/
def starStats (ms iv cc : List ℚ) : List StarStat :=
  List.zipWith (fun m p => ⟨m, p.1, p.2⟩) ms (iv.zip cc)

/-- The plotted output of `plot_precision`: the three arrays after the
positive-estimate mask, reindexed by `sorted_fluxes_idxs`. -/
def precisionOutput (errorEstimate : List ℚ) (fluxes errors : List (List ℚ)) :
    List StarStat :=
  List.insertionSort statLE
    (starStats
      (maskFilter (meanFluxes fluxes)
        (positiveMask (invSnrEstimate errorEstimate (meanFluxes fluxes))))
      (maskFilter (invSnrEstimate errorEstimate (meanFluxes fluxes))
        (positiveMask (invSnrEstimate errorEstimate (meanFluxes fluxes))))
      (maskFilter (ccdEquation (meanErrors errors) (meanFluxes fluxes))
        (positiveMask (invSnrEstimate errorEstimate (meanFluxes fluxes)))))

lemma maskFilter_nil {α : Type} (mask : List Bool) :
    maskFilter ([] : List α) mask = [] := rfl

lemma maskFilter_cons {α : Type} (x : α) (xs : List α) (b : Bool) (bs : List Bool) :
    maskFilter (x :: xs) (b :: bs) =
      if b then x :: maskFilter xs bs else maskFilter xs bs := by
  cases b <;> simp [maskFilter, List.zip_cons_cons, List.filter_cons]

/-- Filtering the three parallel arrays with the positive-estimate mask and
then bundling is bundling and then filtering on the `invSnr` field. -/
lemma starStats_maskFilter :
    ∀ (ms iv cc : List ℚ), iv.length = ms.length → cc.length = ms.length →
      starStats (maskFilter ms (positiveMask iv))
          (maskFilter iv (positiveMask iv))
          (maskFilter cc (positiveMask iv)) =
        (starStats ms iv cc).filter (fun s => decide (0 < s.invSnr))
  | [], [], [], _, _ => rfl
  | [], _ :: _, _, h1, _ => by simp at h1
  | [], [], _ :: _, _, h2 => by simp at h2
  | _ :: _, [], _, h1, _ => by simp at h1
  | _ :: _, _ :: _, [], _, h2 => by simp at h2
  | m :: ms, i :: iv, c :: cc, h1, h2 => by
    have h1' : iv.length = ms.length := by simpa using h1
    have h2' : cc.length = ms.length := by simpa using h2
    have ih := starStats_maskFilter ms iv cc h1' h2'
    by_cases hp : (0 : ℚ) < i
    · simp [positiveMask, maskFilter_cons, starStats, hp] at ih ⊢
      exact ih
    · simp [positiveMask, maskFilter_cons, starStats, hp] at ih ⊢
      exact ih

/-- C3: the precision estimator's output arrays contain exactly the stars
with strictly positive empirical inverse-SNR estimate, have common length at
most the number of stars, and are ordered by ascending mean flux. -/
theorem C3_precision_filter_sort (errorEstimate : List ℚ)
    (fluxes errors : List (List ℚ))
    (h1 : errorEstimate.length = fluxes.length)
    (h2 : errors.length = fluxes.length) :
    (precisionOutput errorEstimate fluxes errors).Perm
      ((starStats (meanFluxes fluxes)
          (invSnrEstimate errorEstimate (meanFluxes fluxes))
          (ccdEquation (meanErrors errors) (meanFluxes fluxes))).filter
        (fun s => decide (0 < s.invSnr))) ∧
    (precisionOutput errorEstimate fluxes errors).length ≤ fluxes.length ∧
    List.Sorted statLE (precisionOutput errorEstimate fluxes errors) := by
  have hmf : (meanFluxes fluxes).length = fluxes.length := by simp [meanFluxes]
  have hiv : (invSnrEstimate errorEstimate (meanFluxes fluxes)).length =
      (meanFluxes fluxes).length := by
    simp [invSnrEstimate]
    omega
  have hcc : (ccdEquation (meanErrors errors) (meanFluxes fluxes)).length =
      (meanFluxes fluxes).length := by
    simp [ccdEquation, meanErrors]
    omega
  have hperm : (precisionOutput errorEstimate fluxes errors).Perm
      ((starStats (meanFluxes fluxes)
          (invSnrEstimate errorEstimate (meanFluxes fluxes))
          (ccdEquation (meanErrors errors) (meanFluxes fluxes))).filter
        (fun s => decide (0 < s.invSnr))) := by
    unfold precisionOutput
    rw [starStats_maskFilter _ _ _ hiv hcc]
    exact List.perm_insertionSort statLE _
  refine ⟨hperm, ?_, List.sorted_insertionSort statLE _⟩
  calc (precisionOutput errorEstimate fluxes errors).length
      = ((starStats (meanFluxes fluxes)
          (invSnrEstimate errorEstimate (meanFluxes fluxes))
          (ccdEquation (meanErrors errors) (meanFluxes fluxes))).filter
            (fun s => decide (0 < s.invSnr))).length := hperm.length_eq
    _ ≤ (starStats (meanFluxes fluxes)
          (invSnrEstimate errorEstimate (meanFluxes fluxes))
          (ccdEquation (meanErrors errors) (meanFluxes fluxes))).length :=
        List.length_filter_le _ _
    _ ≤ fluxes.length := by
        simp [starStats]
        omega

/-- C3 witness: three stars with mean fluxes `5, 1, 3`; only the first has a
positive estimate, so exactly one star survives the filter. -/
theorem C3_precision_filter_sort_witness :
    ([(1 : ℚ), -1, 0].length = [[(4 : ℚ), 6], [1, 1], [2, 4]].length ∧
     [[(1 : ℚ), 1], [2, 2], [3, 3]].length = [[(4 : ℚ), 6], [1, 1], [2, 4]].length) ∧
    ((precisionOutput [(1 : ℚ), -1, 0] [[4, 6], [1, 1], [2, 4]]
        [[1, 1], [2, 2], [3, 3]]).Perm
      ((starStats (meanFluxes [[4, 6], [1, 1], [2, 4]])
          (invSnrEstimate [(1 : ℚ), -1, 0] (meanFluxes [[4, 6], [1, 1], [2, 4]]))
          (ccdEquation (meanErrors [[1, 1], [2, 2], [3, 3]])
            (meanFluxes [[4, 6], [1, 1], [2, 4]]))).filter
        (fun s => decide (0 < s.invSnr))) ∧
    (precisionOutput [(1 : ℚ), -1, 0] [[4, 6], [1, 1], [2, 4]]
        [[1, 1], [2, 2], [3, 3]]).length ≤
      [[(4 : ℚ), 6], [1, 1], [2, 4]].length ∧
    List.Sorted statLE
      (precisionOutput [(1 : ℚ), -1, 0] [[4, 6], [1, 1], [2, 4]]
        [[1, 1], [2, 2], [3, 3]])) :=
  ⟨⟨by decide, by decide⟩,
   C3_precision_filter_sort [(1 : ℚ), -1, 0] [[4, 6], [1, 1], [2, 4]]
     [[1, 1], [2, 2], [3, 3]] (by decide) (by decide)⟩

/-! ### CSV measurement table — `reports/__init__.py`,
`ObservationReport.to_csv_report`, lines 237–273

    list_columns[::2] = list_diff        # even slots: flux column names
    list_columns[1::2] = list_err        # odd slots: error column names
    (same slicing for the value arrays)
    df = pd.DataFrame(collections.OrderedDict({ time, T1 flux/err,
        **dict(zip(list_columns, list_columns_array)), dx, dy, FWHM,
        SKYLEVEL, AIRMASS, EXPOSURE }))
    df.to_csv(destination, sep=sep, index=False)

The slice assignment `l[::2] = xs; l[1::2] = ys` on equal-length halves is
`interleave`; the Python dict literal is an insertion-ordered map built by
`dictOfPairs` (repeated keys keep the first position, last value). -/

/-- Even/odd slice assignment: element `2*i` from the first list, `2*i+1`
from the second (for equal-length inputs, the only case the code creates). -/
def interleave {α : Type} : List α → List α → List α
  | [], _ => []
  | x :: xs, [] => [x]
  | x :: xs, y :: ys => x :: y :: interleave xs ys

/-- Python dict insertion: an existing key keeps its position and takes the
new value, a new key is appended. -/
def dictInsert {α : Type} (d : List (String × α)) (k : String) (v : α) :
    List (String × α) :=
  if d.any (fun p => p.1 == k) then
    d.map (fun p => if p.1 == k then (k, v) else p)
  else d ++ [(k, v)]

/-- A Python dict literal built from an insertion-ordered pair list. -/
def dictOfPairs {α : Type} (ps : List (String × α)) : List (String × α) :=
  ps.foldl (fun d p => dictInsert d p.1 p.2) []

/-- Column name `"DIFF_FLUX_C%s" % i`. -/
def fluxColName (i : ℕ) : String := "DIFF_FLUX_C" ++ toString i

/-- Column name `"DIFF_ERROR_C%s" % i`. -/
def errColName (i : ℕ) : String := "DIFF_ERROR_C" ++ toString i

/-- The observation fields `to_csv_report` reads (per-star series are indexed
by star id, as in `self.diff_fluxes[self.aperture, i]`). -/
structure CsvObs where
  timeFormat : String
  time : List ℚ
  diffFlux : List ℚ
  diffError : List ℚ
  comps : List ℕ
  diffFluxes : ℕ → List ℚ
  diffErrors : ℕ → List ℚ
  dx : List ℚ
  dy : List ℚ
  fwhm : List ℚ
  sky : List ℚ
  airmass : List ℚ
  exptime : List ℚ

/-- The insertion-ordered pair list inside the dict literal of
`to_csv_report`, before dict key deduplication. -/
def rawCsvPairs (o : CsvObs) : List (String × List ℚ) :=
  [((if o.timeFormat == "bjd_tdb" then "BJD-TDB" else "JD-UTC"), o.time),
   ("DIFF_FLUX_T1", o.diffFlux),
   ("DIFF_ERROR_T1", o.diffError)] ++
  List.zip
    (interleave (o.comps.map fluxColName) (o.comps.map errColName))
    (interleave (o.comps.map (fun i => o.diffFluxes i))
      (o.comps.map (fun i => o.diffErrors i))) ++
  [("dx", o.dx), ("dy", o.dy), ("FWHM", o.fwhm), ("SKYLEVEL", o.sky),
   ("AIRMASS", o.airmass), ("EXPOSURE", o.exptime)]

/-- The DataFrame's columns, in order: the dict built from the pair list. -/
def toCsvColumns (o : CsvObs) : List (String × List ℚ) :=
  dictOfPairs (rawCsvPairs o)

/-- The CSV body written by `df.to_csv(..., index=False)`: one row per time
index, one cell per column. -/
def csvRows (o : CsvObs) : List (List ℚ) :=
  (List.range o.time.length).map
    (fun t => (toCsvColumns o).map (fun c => c.2.getD t 0))

lemma interleave_map_map {α β : Type} (f g : α → β) (l : List α) :
    interleave (l.map f) (l.map g) = l.flatMap (fun i => [f i, g i]) := by
  induction l with
  | nil => rfl
  | cons a l ih => simp [interleave, ih]

/-- Zipping the two interleaved lists pairs each flux column name with its
array and each error column name with its array, star by star. -/
lemma zip_interleave_maps {α β γ : Type} (f g : α → β) (F G : α → γ)
    (l : List α) :
    List.zip (interleave (l.map f) (l.map g)) (interleave (l.map F) (l.map G)) =
      l.flatMap (fun i => [((f i, F i) : β × γ), (g i, G i)]) := by
  induction l with
  | nil => rfl
  | cons a l ih => simp [interleave, List.zip_cons_cons, ih]

lemma dictInsert_not_mem {α : Type} (d : List (String × α)) (k : String)
    (v : α) (h : k ∉ d.map Prod.fst) : dictInsert d k v = d ++ [(k, v)] := by
  unfold dictInsert
  rw [if_neg]
  intro hc
  rw [List.any_eq_true] at hc
  obtain ⟨p, hp, hpk⟩ := hc
  exact h (List.mem_map.mpr ⟨p, hp, by simpa using hpk⟩)

lemma foldl_dictInsert_nodup {α : Type} :
    ∀ (ps acc : List (String × α)), (((acc ++ ps).map Prod.fst)).Nodup →
      ps.foldl (fun d p => dictInsert d p.1 p.2) acc = acc ++ ps
  | [], acc, _ => by simp
  | p :: ps, acc, h => by
    have hk : p.1 ∉ acc.map Prod.fst := by
      have hd := (List.nodup_append.mp (by simpa [List.map_append] using h)).2.2
      intro hmem
      exact hd hmem (by simp)
    rw [List.foldl_cons, dictInsert_not_mem _ _ _ hk,
      foldl_dictInsert_nodup ps (acc ++ [p]) (by simpa [List.append_assoc] using h)]
    simp

/-- With pairwise-distinct keys the Python dict literal is the pair list
itself. -/
lemma dictOfPairs_nodup {α : Type} (ps : List (String × α))
    (h : (ps.map Prod.fst).Nodup) : dictOfPairs ps = ps := by
  simpa using foldl_dictInsert_nodup ps [] (by simpa using h)

/-- C1: the CSV columns are, in order: the time column (`BJD-TDB` iff the
time format is `bjd_tdb`, else `JD-UTC`), target flux and error, flux/error
pair per comparison star in order, then the six auxiliary columns; the body
has one row per observation epoch, each row one cell per column. -/
theorem C1_csv_schema (o : CsvObs)
    (hnd : ((rawCsvPairs o).map Prod.fst).Nodup)
    (hlen : ∀ c ∈ toCsvColumns o, c.2.length = o.time.length) :
    toCsvColumns o =
      [((if o.timeFormat == "bjd_tdb" then "BJD-TDB" else "JD-UTC"), o.time),
       ("DIFF_FLUX_T1", o.diffFlux),
       ("DIFF_ERROR_T1", o.diffError)] ++
      (o.comps.flatMap (fun i =>
        [(fluxColName i, o.diffFluxes i), (errColName i, o.diffErrors i)])) ++
      [("dx", o.dx), ("dy", o.dy), ("FWHM", o.fwhm), ("SKYLEVEL", o.sky),
       ("AIRMASS", o.airmass), ("EXPOSURE", o.exptime)] ∧
    (csvRows o).length = o.time.length ∧
    ∀ r ∈ csvRows o, r.length = (toCsvColumns o).length := by
  refine ⟨?_, by simp [csvRows], ?_⟩
  · unfold toCsvColumns
    rw [dictOfPairs_nodup _ hnd]
    unfold rawCsvPairs
    rw [zip_interleave_maps]
  · intro r hr
    simp only [csvRows, List.mem_map, List.mem_range] at hr
    obtain ⟨t, _, rfl⟩ := hr
    simp

/-- A small concrete observation for the C1 witness: two epochs, comparison
stars 2 and 5. -/
def sampleCsvObs : CsvObs :=
  ⟨"bjd_tdb", [0, 1], [1, 2], [3, 4], [2, 5],
   fun i => [(i : ℚ), (i : ℚ) + 1], fun i => [(i : ℚ), (i : ℚ) + 2],
   [0, 0], [0, 0], [0, 0], [0, 0], [0, 0], [0, 0]⟩

/-- C1 witness: the schema theorem applied to `sampleCsvObs`. -/
theorem C1_csv_schema_witness :
    (((rawCsvPairs sampleCsvObs).map Prod.fst).Nodup ∧
     ∀ c ∈ toCsvColumns sampleCsvObs, c.2.length = sampleCsvObs.time.length) ∧
    (toCsvColumns sampleCsvObs =
      [((if sampleCsvObs.timeFormat == "bjd_tdb" then "BJD-TDB" else "JD-UTC"),
        sampleCsvObs.time),
       ("DIFF_FLUX_T1", sampleCsvObs.diffFlux),
       ("DIFF_ERROR_T1", sampleCsvObs.diffError)] ++
      (sampleCsvObs.comps.flatMap (fun i =>
        [(fluxColName i, sampleCsvObs.diffFluxes i),
         (errColName i, sampleCsvObs.diffErrors i)])) ++
      [("dx", sampleCsvObs.dx), ("dy", sampleCsvObs.dy),
       ("FWHM", sampleCsvObs.fwhm), ("SKYLEVEL", sampleCsvObs.sky),
       ("AIRMASS", sampleCsvObs.airmass), ("EXPOSURE", sampleCsvObs.exptime)] ∧
    (csvRows sampleCsvObs).length = sampleCsvObs.time.length ∧
    ∀ r ∈ csvRows sampleCsvObs, r.length = (toCsvColumns sampleCsvObs).length) :=
  ⟨⟨by decide, by decide⟩, C1_csv_schema sampleCsvObs (by decide) (by decide)⟩

/-! ### Precision estimator theoretical curves — `observation.py`,
`Observation.plot_precision`, lines 544–574

    ccd_equation = (mean_errors / mean_fluxes)
    ... np.sqrt(mean_fluxes) / mean_fluxes ...          # photon noise
    ... np.sqrt(np.mean(self.sky) * area) / mean_fluxes # background noise

Real square roots appear here, so this section models values in ℝ. -/

/-- Arithmetic mean of a list of reals (`np.mean`). -/
noncomputable def meanR (xs : List ℝ) : ℝ := xs.sum / (xs.length : ℝ)

/-- The plotted photon-noise curve `np.sqrt(mean_fluxes) / mean_fluxes`. -/
noncomputable def codePhotonCurve (meanF : List ℝ) : List ℝ :=
  meanF.map (fun F => Real.sqrt F / F)

/-- The plotted background-noise curve
`np.sqrt(np.mean(self.sky) * area) / mean_fluxes`. -/
noncomputable def codeBackgroundCurve (sky : List ℝ) (area : ℝ)
    (meanF : List ℝ) : List ℝ :=
  meanF.map (fun F => Real.sqrt (meanR sky * area) / F)

/-- The CCD-equation curve `mean_errors / mean_fluxes` from the per-star
flux and error series. -/
noncomputable def codeCcdEquation (fluxes errors : List (List ℝ)) : List ℝ :=
  List.zipWith (fun e F => e / F) (errors.map meanR) (fluxes.map meanR)

/-- Spec closed form: photon-noise-limited inverse SNR `sqrt(F)/F`. -/
noncomputable def spec_photonInvSnr (F : ℝ) : ℝ := Real.sqrt F / F

/-- Spec closed form: background-noise-limited inverse SNR `sqrt(S*A)/F`. -/
noncomputable def spec_backgroundInvSnr (S A F : ℝ) : ℝ := Real.sqrt (S * A) / F

/-- Spec closed form: CCD-equation estimate `mean(error)/mean(flux)` per
star. -/
noncomputable def spec_ccdInvSnr (fluxSeries errSeries : List ℝ) : ℝ :=
  meanR errSeries / meanR fluxSeries

/-- C2: the three theoretical curves computed by the code agree star-by-star
with the spec's closed forms in mean flux `F`, mean sky `S` and aperture
area `A`. -/
theorem C2_precision_curves (fluxes errors : List (List ℝ)) (sky : List ℝ)
    (area : ℝ) (meanF : List ℝ) :
    codePhotonCurve meanF = meanF.map spec_photonInvSnr ∧
    codeBackgroundCurve sky area meanF =
      meanF.map (spec_backgroundInvSnr (meanR sky) area) ∧
    codeCcdEquation fluxes errors =
      (fluxes.zip errors).map (fun p => spec_ccdInvSnr p.1 p.2) := by
  refine ⟨rfl, rfl, ?_⟩
  induction fluxes generalizing errors with
  | nil => cases errors <;> rfl
  | cons fl fls ih =>
    cases errors with
    | nil => rfl
    | cons er ers =>
      have h := ih ers
      simp only [codeCcdEquation] at h ⊢
      simp [List.zip_cons_cons, spec_ccdInvSnr, h]

end ProseVerify
